import Mathlib

/-!
Verification development for the Timor-Leste healthcare facility-location
repository (src/solve.py, src/inefficient_model.py, src/run.py).

The development shallowly embeds:
  * the synthetic instance generator `generate_data` of src/solve.py
    (lines 21-74), with the two seeded pseudo-random streams of the Python
    `random` module and of `numpy.random` modelled as deterministic
    counter-indexed hash streams consumed in the source's draw order;
  * the dense formulation builder `generate_gurobipy_model` of
    src/inefficient_model.py (also built inline in `main` of src/solve.py),
    and the sparse-lazy builder `build_model` of src/solve.py, as fallible
    functions returning either a `Formulation` value or the first KeyError
    a Python dict lookup would raise;
  * the constraint semantics of the emitted mixed-integer program, as a
    feasibility predicate over binary variable assignments;
  * the result-reporting branch of `main` (src/solve.py lines 226-244 and
    the identical branch in src/run.py).
-/

/-! ## Pseudo-random stream model

The Python code seeds two independent generators (`random.seed(seed)` and
`np.random.seed(seed)`) and consumes draws in a fixed order.  Each stream is
modelled as a deterministic hash of the seed and the draw index; the draw
index bookkeeping below follows the exact consumption order of
`generate_data`.  No claim depends on the distribution of the values, only
on ranges and on determinism. -/

def npMix (seed idx : Nat) : Nat :=
  (1103515245 * (seed + 12345) + 2654435761 * idx + 1013904223) % 4294967296

def pyMix (seed idx : Nat) : Nat :=
  (22695477 * (seed + 7919) + 104729 * idx + 1) % 4294967296

/-- Model of `random.uniform(a, b)` at draw index `idx` of the Python
`random` stream: a rational in `[a, b)`. -/
def pyUniform (seed idx : Nat) (a b : ℚ) : ℚ :=
  a + (b - a) * ((pyMix seed idx % 10000 : Nat) : ℚ) / 10000

/-- Model of `numpy.random.uniform(a, b)` at draw index `idx` of the numpy
stream: a rational in `[a, b)`. -/
def npUniform (seed idx : Nat) (a b : ℚ) : ℚ :=
  a + (b - a) * ((npMix seed idx % 10000 : Nat) : ℚ) / 10000

/-- Model of Python `random.randint(a, b)` (both endpoints inclusive). -/
def pyRandint (seed idx a b : Nat) : Nat :=
  a + pyMix seed idx % (b - a + 1)

/-- Model of `numpy.random.randint(a, b)` (half-open, `b` exclusive). -/
def npRandint (seed idx a b : Nat) : Nat :=
  a + npMix seed idx % (b - a)

/-- Embedding of Python `round(q, 2)`: round to two decimal places.
(Python uses banker's rounding on exact half-cent ties; this embedding
rounds half up.  No claim depends on tie behaviour.) -/
def round2 (q : ℚ) : ℚ :=
  ((⌊q * 100 + 1 / 2⌋ : ℤ) : ℚ) / 100

/-- Computable non-negative rational stand-in for the square root used by
`np.linalg.norm`.  No claim depends on its exact values, only on the
structure of the computation around it. -/
def ratSqrt (q : ℚ) : ℚ :=
  ((Nat.sqrt (q.num.toNat * q.den * 10000) : ℚ)) / ((q.den : ℚ) * 100)

/-! ## Instance data model

Shape of the dictionary returned by `generate_data` (and of the persisted
JSON document).  Python dicts built by in-order insertion of distinct keys
are modelled as association lists in the same insertion order. -/

structure DataInstance where
  households : List String
  existing_hospitals : List String
  candidate_hospitals : List String
  all_hospitals : List String
  population : List (String × Int)
  travel_distances : List (String × List (String × ℚ))
  distance_indicators : List (String × List (String × Int))
  max_travel_distance : ℚ
  max_new_hospitals : Int

/-- Association-list lookup, modelling Python `d[k]` returning
`some`/`none` instead of value/KeyError. -/
def lookupS {α : Type} (m : List (String × α)) (k : String) : Option α :=
  match m with
  | [] => none
  | (k2, v) :: rest => if k2 = k then some v else lookupS rest k

/-- Nested lookup `d[h][s]` for the household-keyed nested mappings. -/
def lookup2 {α : Type} (m : List (String × List (String × α))) (h s : String) : Option α :=
  match lookupS m h with
  | none => none
  | some row => lookupS row s

/-! ## The instance generator (src/solve.py, `generate_data`) -/

def nHouseholds : Nat := 20000
def mExisting : Nat := 15
def numNewSites : Nat := 100

/-- Identifier lists such as `[f"H{i+1}" for i in range(n)]`. -/
def idsFrom (pre : String) (n : Nat) : List String :=
  (List.range n).map (fun i => pre ++ toString (i + 1))

def genHouseholds : List String := idsFrom "H" nHouseholds
def genExisting : List String := idsFrom "EJ" mExisting
def genCandidates : List String := idsFrom "CJ" numNewSites
def genAll : List String := genExisting ++ genCandidates

/-- numpy draw-order bookkeeping: household coordinates consume
`2 * nHouseholds` draws, hospital coordinates `2 * (mExisting + numNewSites)`
draws, then populations consume one draw per household. -/
def popBase : Nat := 2 * nHouseholds + 2 * (mExisting + numNewSites)

def noiseBase : Nat := popBase + nHouseholds

def hhX (seed i : Nat) : ℚ := npUniform seed (2 * i) 0 100
def hhY (seed i : Nat) : ℚ := npUniform seed (2 * i + 1) 0 100
def siteX (seed j : Nat) : ℚ := npUniform seed (2 * nHouseholds + 2 * j) 0 100
def siteY (seed j : Nat) : ℚ := npUniform seed (2 * nHouseholds + 2 * j + 1) 0 100

/-- Euclidean distance `np.linalg.norm(household_coords[i] - hospital_coords[j])`
(with the computable square-root stand-in). -/
def euclid (seed i j : Nat) : ℚ :=
  ratSqrt ((hhX seed i - siteX seed j) ^ 2 + (hhY seed i - siteY seed j) ^ 2)

/-- The stored-distance formula of src/solve.py line 51:
`round(float(dist + np.random.uniform(-10, 10)), 2)`.  Note: the sum is
rounded directly, with no clipping at zero. -/
def perturbRound (dist noise : ℚ) : ℚ := round2 (dist + noise)

/-- Stored travel distance for household index `i` and site index `j`. -/
def travelVal (seed i j : Nat) : ℚ :=
  perturbRound (euclid seed i j)
    (npUniform seed (noiseBase + i * (mExisting + numNewSites) + j) (-10) 10)

/-- `S = round(random.uniform(8, 15), 2)` — first draw of the Python
`random` stream. -/
def genS (seed : Nat) : ℚ := round2 (pyUniform seed 0 8 15)

/-- `p = min(random.randint(5, num_new_sites), num_new_sites)` — second
draw of the Python `random` stream. -/
def genP (seed : Nat) : Nat := min (pyRandint seed 1 5 numNewSites) numNewSites

/-- Inner travel-distance row `travel_distances[h]`, one entry per hospital
in `all_hospitals` order. -/
def travelRow (seed i : Nat) : List (String × ℚ) :=
  genAll.enum.map (fun r => (r.2, travelVal seed i r.1))

/-- Inner indicator row `distance_indicators[h]`:
`int(travel_distances[h][hosp] <= S)` per hospital.  The dict lookup
`travel_distances[h][hosp]` resolves to `travelVal seed i j` because the
travel-distance dict was just built by the identical loop over the same
key lists. -/
def indRow (seed i : Nat) : List (String × Int) :=
  genAll.enum.map (fun r => (r.2, if travelVal seed i r.1 ≤ genS seed then 1 else 0))

/-- Embedding of `generate_data` (src/solve.py lines 21-74). -/
def generate_data (seed : Nat) : DataInstance :=
  { households := genHouseholds
    existing_hospitals := genExisting
    candidate_hospitals := genCandidates
    all_hospitals := genAll
    population := genHouseholds.enum.map
      (fun q => (q.2, (npRandint seed (popBase + q.1) 50 500 : Int)))
    travel_distances := genHouseholds.enum.map (fun q => (q.2, travelRow seed q.1))
    distance_indicators := genHouseholds.enum.map (fun q => (q.2, indRow seed q.1))
    max_travel_distance := genS seed
    max_new_hospitals := (genP seed : Int) }

/-! ## Claims about the generator -/

/-- C2: the claim states that the perturbed Euclidean distance is clipped
at zero before rounding, so no stored travel distance is negative.  The
stored-distance formula of the code (`perturbRound`, src/solve.py line 51)
performs no clipping: at Euclidean distance `6` and noise draw `-19/2`
(both inside the code's ranges: distances are non-negative and the noise
is drawn from `[-10, 10)`), the stored value is `-7/2 < 0`.  This
evaluates the code at the failing input of the code_bug report. -/
theorem claim2_no_clipping_negative_distance :
    (0 : ℚ) ≤ 6 ∧ (-10 : ℚ) ≤ -19 / 2 ∧ (-19 / 2 : ℚ) ≤ 10 ∧
      perturbRound 6 (-19 / 2) = -7 / 2 ∧ perturbRound 6 (-19 / 2) < 0 := by
  refine ⟨by norm_num, by norm_num, by norm_num, ?_, ?_⟩ <;>
    · unfold perturbRound round2
      norm_num

/-- C3: the generator is deterministic — two invocations with the same
seed (the size parameters are fixed constants in the source) produce
identical instances: equal id lists, populations, stored distances,
indicators, max travel distance and budget, since the whole instance is a
pure function of the seed and the two seeded streams. -/
theorem claim3_generator_deterministic (s t : Nat) (hst : s = t) :
    generate_data s = generate_data t := by
  rw [hst]

/-- Witness for C3 at seed 42. -/
theorem claim3_generator_deterministic_witness :
    generate_data 42 = generate_data 42 :=
  claim3_generator_deterministic 42 42 rfl

/-- C7: the open-budget `p` is `min(random.randint(5, num_new_sites),
num_new_sites)` with `num_new_sites = 100` candidate sites, so for every
seed the produced instance satisfies `5 ≤ p ≤ k` where `k` is the
candidate-site count. -/
theorem claim7_budget_in_range (seed : Nat) :
    5 ≤ (generate_data seed).max_new_hospitals ∧
      (generate_data seed).max_new_hospitals ≤ (numNewSites : Int) ∧
      (generate_data seed).candidate_hospitals.length = numNewSites := by
  refine ⟨?_, ?_, ?_⟩
  · simp only [generate_data, genP, pyRandint, numNewSites]
    omega
  · simp only [generate_data, genP, pyRandint, numNewSites]
    omega
  · simp [generate_data, genCandidates, idsFrom]

/-! ## Lookup lemmas for the nested instance mappings -/

/-- Looking up in an association list built over the same spine with
pointwise-related values factors through `Option.map`. -/
theorem lookupS_map_rel {σ α β : Type} (l : List σ) (key : σ → String)
    (f : σ → α) (g : σ → β) (φ : α → β) (hfg : ∀ a, g a = φ (f a)) (x : String) :
    lookupS (l.map (fun a => (key a, g a))) x
      = Option.map φ (lookupS (l.map (fun a => (key a, f a))) x) := by
  induction l with
  | nil => rfl
  | cons b t ih =>
    simp only [List.map_cons, lookupS]
    by_cases hb : key b = x
    · simp [hb, hfg]
    · simp [hb, ih]

/-- Mapping a function over the values of an association list commutes
with lookup. -/
theorem lookupS_map_snd {α β : Type} (row : List (String × α)) (ψ : α → β) (x : String) :
    lookupS (row.map (fun q => (q.1, ψ q.2))) x = Option.map ψ (lookupS row x) := by
  induction row with
  | nil => rfl
  | cons b t ih =>
    simp only [List.map_cons, lookupS]
    by_cases hb : b.1 = x
    · simp [hb]
    · simp [hb, ih]

/-- Each indicator row is the pointwise thresholding of the corresponding
travel-distance row. -/
theorem indRow_eq_map (seed i : Nat) :
    indRow seed i
      = (travelRow seed i).map (fun r => (r.1, if r.2 ≤ genS seed then (1 : Int) else 0)) := by
  unfold indRow travelRow
  rw [List.map_map]
  rfl

/-- C8: in every generated instance the stored feasibility indicator for a
pair is `1` exactly when the stored (perturbed, rounded) travel distance is
at most the stored `max_travel_distance`, and `0` otherwise: re-deriving
the indicators from the stored distances and stored maximum reproduces the
stored indicators exactly, for every pair of keys (present or absent). -/
theorem claim8_indicator_rederivable (seed : Nat) (h s : String) :
    lookup2 (generate_data seed).distance_indicators h s
      = Option.map (fun dv => if dv ≤ (generate_data seed).max_travel_distance then (1 : Int) else 0)
          (lookup2 (generate_data seed).travel_distances h s) := by
  have houter := lookupS_map_rel genHouseholds.enum (fun q => q.2)
    (fun q => travelRow seed q.1) (fun q => indRow seed q.1)
    (fun row => row.map (fun r => (r.1, if r.2 ≤ genS seed then (1 : Int) else 0)))
    (fun a => indRow_eq_map seed a.1) h
  simp only [generate_data]
  unfold lookup2
  rw [houter]
  cases htr : lookupS (genHouseholds.enum.map (fun q => (q.2, travelRow seed q.1))) h with
  | none => simp
  | some row =>
    simp only [Option.map_some]
    exact lookupS_map_snd row (fun dv => if dv ≤ genS seed then (1 : Int) else 0) s

/-! ## The formulation builders

`generate_gurobipy_model` (src/inefficient_model.py) and the inline build
in `main` of src/solve.py emit the dense distance constraints
`y[i,j] <= distance_indicators[i][j]` for every pair; `build_model`
(src/solve.py lines 85-136) emits `y[i,j] <= 0` marked lazy only for the
pairs whose indicator is 0.  Both builders read `households`,
`existing_hospitals`, `candidate_hospitals`, `all_hospitals`,
`population`, `distance_indicators` and `max_new_hospitals` from the data
dictionary; neither reads `travel_distances` or `max_travel_distance`.
A failed dict lookup is a raised KeyError, embedded as `Except.error`. -/

def exceptOk {α : Type} : Except String α → Bool
  | .ok _ => true
  | .error _ => false

/-- Traverse a list with a fallible function, stopping at the first
error, as a Python loop containing fallible lookups does. -/
def mapE {α β : Type} (l : List α) (f : α → Except String β) : Except String (List β) :=
  match l with
  | [] => .ok []
  | a :: as =>
    match f a with
    | .error e => .error e
    | .ok b =>
      match mapE as f with
      | .error e => .error e
      | .ok bs => .ok (b :: bs)

/-- One distance-feasibility constraint `y[i,j] <= rhs`, with the
deferred-enforcement flag of the sparse builder. -/
structure DistCon where
  h : String
  s : String
  rhs : Int
  lazyFlag : Bool

/-- The solver-ready artifact both builders emit: variable index sets,
objective coefficients, and the data of the five constraint families.
Family 3's big-M bound is recorded in `bigM`. -/
structure Formulation where
  households : List String
  existing : List String
  candidates : List String
  all_hospitals : List String
  popCoeffs : List (String × Int)
  budget : Int
  bigM : Nat
  distCons : List DistCon

/-- Objective-stage lookups: `population[i]` for each household, as in
`quicksum(population[i] * y[i, j] ...)`. -/
def popStage (d : DataInstance) : Except String (List (String × Int)) :=
  mapE d.households (fun i =>
    match lookupS d.population i with
    | some v => .ok (i, v)
    | none => .error ("KeyError: population " ++ i))

/-- Constraint-1/2 variable lookups: `x[j]` exists only for sites in
`all_hospitals`, so a site listed in `existing_hospitals` or
`candidate_hospitals` but absent from the combined list raises. -/
def siteVarStage (d : DataInstance) (sites : List String) : Except String (List Unit) :=
  mapE sites (fun j =>
    cond (d.all_hospitals.contains j) (.ok ()) (.error ("KeyError: x " ++ j)))

/-- Constraint-5 indicator lookups: `distance_indicators[i][j]` for every
household and every site of the combined list, collected row by row. -/
def rowStage (d : DataInstance) : Except String (List (String × List (String × Int))) :=
  mapE d.households (fun i =>
    match lookupS d.distance_indicators i with
    | none => .error ("KeyError: distance_indicators " ++ i)
    | some row =>
      match mapE d.all_hospitals (fun j =>
        match lookupS row j with
        | none => .error ("KeyError: distance_indicators " ++ i ++ " " ++ j)
        | some v => .ok (j, v)) with
      | .error e => .error e
      | .ok entries => .ok (i, entries))

/-- Dense distance constraints: one `y[i,j] <= indicator[i][j]` per pair
(src/inefficient_model.py lines 74-77). -/
def denseConsOf (rows : List (String × List (String × Int))) : List DistCon :=
  rows.flatMap (fun p => p.2.map (fun q => ⟨p.1, q.1, q.2, false⟩))

/-- Sparse-lazy distance constraints: `y[i,j] <= 0` marked lazy, emitted
only when `distance_indicators[i][j] == 0` (src/solve.py lines 129-134). -/
def sparseConsOf (rows : List (String × List (String × Int))) : List DistCon :=
  rows.flatMap (fun p => p.2.filterMap (fun q =>
    if q.2 = 0 then some ⟨p.1, q.1, 0, true⟩ else none))

/-- Shared formulation skeleton: variables over the instance's id lists,
objective coefficients from `population`, budget right-hand side
`max_new_hospitals`, and family-3 big-M bound `len(households)`. -/
def mkForm (d : DataInstance) (pop : List (String × Int)) (cons : List DistCon) : Formulation :=
  { households := d.households
    existing := d.existing_hospitals
    candidates := d.candidate_hospitals
    all_hospitals := d.all_hospitals
    popCoeffs := pop
    budget := d.max_new_hospitals
    bigM := d.households.length
    distCons := cons }

/-- Embedding of the dense builder `generate_gurobipy_model`
(src/inefficient_model.py; the inline build in `main` of src/solve.py is
textually identical).  Stages appear in the source's evaluation order:
objective lookups, constraint-1 and constraint-2 variable lookups, then
the constraint-5 indicator lookups. -/
def buildDense (d : DataInstance) : Except String Formulation :=
  match popStage d with
  | .error e => .error e
  | .ok pop =>
    match siteVarStage d d.existing_hospitals with
    | .error e => .error e
    | .ok _ =>
      match siteVarStage d d.candidate_hospitals with
      | .error e => .error e
      | .ok _ =>
        match rowStage d with
        | .error e => .error e
        | .ok rows => .ok (mkForm d pop (denseConsOf rows))

/-- Embedding of the sparse-lazy builder `build_model` (src/solve.py
lines 85-136): identical to the dense builder except that constraint
family 5 keeps only the indicator-0 pairs, as `y[i,j] <= 0` lazy
constraints. -/
def buildSparse (d : DataInstance) : Except String Formulation :=
  match popStage d with
  | .error e => .error e
  | .ok pop =>
    match siteVarStage d d.existing_hospitals with
    | .error e => .error e
    | .ok _ =>
      match siteVarStage d d.candidate_hospitals with
      | .error e => .error e
      | .ok _ =>
        match rowStage d with
        | .error e => .error e
        | .ok rows => .ok (mkForm d pop (sparseConsOf rows))

/-! ## C10: the builders never consult the raw distances -/

/-- C10 (implicit): both builders depend only on the id lists,
`population`, `distance_indicators` and `max_new_hospitals`: two input
dictionaries agreeing on those fields, however much their
`travel_distances` and `max_travel_distance` differ, yield identical
formulations from the dense builder and from the sparse-lazy builder. -/
theorem claim10_distances_never_read (d d2 : DataInstance)
    (h1 : d.households = d2.households)
    (h2 : d.existing_hospitals = d2.existing_hospitals)
    (h3 : d.candidate_hospitals = d2.candidate_hospitals)
    (h4 : d.all_hospitals = d2.all_hospitals)
    (h5 : d.population = d2.population)
    (h6 : d.distance_indicators = d2.distance_indicators)
    (h7 : d.max_new_hospitals = d2.max_new_hospitals) :
    buildDense d = buildDense d2 ∧ buildSparse d = buildSparse d2 := by
  constructor <;>
    simp only [buildDense, buildSparse, popStage, siteVarStage, rowStage, mkForm,
      h1, h2, h3, h4, h5, h6, h7]

/-! ## Error-propagation lemmas for the builders -/

theorem mapE_err {α β : Type} (l : List α) (f : α → Except String β) (a : α)
    (ha : a ∈ l) (hfa : exceptOk (f a) = false) :
    exceptOk (mapE l f) = false := by
  induction l with
  | nil => cases ha
  | cons b t ih =>
    rcases List.mem_cons.mp ha with hab | hat
    · subst hab
      cases hf : f a with
      | error e => simp [mapE, hf, exceptOk]
      | ok v => rw [hf] at hfa; simp [exceptOk] at hfa
    · cases hf : f b with
      | error e => simp [mapE, hf, exceptOk]
      | ok v =>
        have := ih hat
        cases ht : mapE t f with
        | error e => simp [mapE, hf, ht, exceptOk]
        | ok vs => rw [ht] at this; simp [exceptOk] at this

theorem mapE_ok_forward {α β : Type} (l : List α) (f : α → Except String β)
    (out : List β) (hok : mapE l f = .ok out) :
    ∀ a ∈ l, ∃ b, f a = .ok b ∧ b ∈ out := by
  induction l generalizing out with
  | nil => intro a ha; cases ha
  | cons b t ih =>
    intro a ha
    unfold mapE at hok
    cases hf : f b with
    | error e => rw [hf] at hok; cases hok
    | ok v =>
      rw [hf] at hok
      cases ht : mapE t f with
      | error e => rw [ht] at hok; cases hok
      | ok vs =>
        rw [ht] at hok
        cases hok
        rcases List.mem_cons.mp ha with hab | hat
        · subst hab; exact ⟨v, hf, List.mem_cons_self _ _⟩
        · rcases ih vs ht a hat with ⟨w, hw, hwm⟩
          exact ⟨w, hw, List.mem_cons_of_mem _ hwm⟩

theorem mapE_ok_backward {α β : Type} (l : List α) (f : α → Except String β)
    (out : List β) (hok : mapE l f = .ok out) :
    ∀ b ∈ out, ∃ a ∈ l, f a = .ok b := by
  induction l generalizing out with
  | nil =>
    intro b hb
    unfold mapE at hok
    cases hok
    cases hb
  | cons c t ih =>
    intro b hb
    unfold mapE at hok
    cases hf : f c with
    | error e => rw [hf] at hok; cases hok
    | ok v =>
      rw [hf] at hok
      cases ht : mapE t f with
      | error e => rw [ht] at hok; cases hok
      | ok vs =>
        rw [ht] at hok
        cases hok
        rcases List.mem_cons.mp hb with hbv | hbt
        · subst hbv; exact ⟨c, List.mem_cons_self _ _, hf⟩
        · rcases ih vs ht b hbt with ⟨a, hal, hfa⟩
          exact ⟨a, List.mem_cons_of_mem _ hal, hfa⟩

theorem lookupS_mem {α : Type} (m : List (String × α)) (k : String) (v : α)
    (h : lookupS m k = some v) : (k, v) ∈ m := by
  induction m with
  | nil => cases h
  | cons b t ih =>
    cases b with
    | mk k2 w =>
      unfold lookupS at h
      by_cases hk : k2 = k
      · rw [if_pos hk] at h
        cases h
        subst hk
        exact List.mem_cons_self _ _
      · rw [if_neg hk] at h
        exact List.mem_cons_of_mem _ (ih h)

/-- A builder run fails as soon as its objective-stage lookups fail. -/
theorem buildDense_err_pop (d : DataInstance) (h : exceptOk (popStage d) = false) :
    exceptOk (buildDense d) = false := by
  unfold buildDense
  cases hp : popStage d with
  | error e => simp [exceptOk]
  | ok pop => rw [hp] at h; simp [exceptOk] at h

theorem buildSparse_err_pop (d : DataInstance) (h : exceptOk (popStage d) = false) :
    exceptOk (buildSparse d) = false := by
  unfold buildSparse
  cases hp : popStage d with
  | error e => simp [exceptOk]
  | ok pop => rw [hp] at h; simp [exceptOk] at h

/-- A builder run fails as soon as its indicator-stage lookups fail. -/
theorem buildDense_err_rows (d : DataInstance) (h : exceptOk (rowStage d) = false) :
    exceptOk (buildDense d) = false := by
  unfold buildDense
  cases hp : popStage d with
  | error e => simp [exceptOk]
  | ok pop =>
    cases he : siteVarStage d d.existing_hospitals with
    | error e => simp [exceptOk]
    | ok u =>
      cases hc : siteVarStage d d.candidate_hospitals with
      | error e => simp [exceptOk]
      | ok u2 =>
        cases hr : rowStage d with
        | error e => simp [exceptOk]
        | ok rows => rw [hr] at h; simp [exceptOk] at h

theorem buildSparse_err_rows (d : DataInstance) (h : exceptOk (rowStage d) = false) :
    exceptOk (buildSparse d) = false := by
  unfold buildSparse
  cases hp : popStage d with
  | error e => simp [exceptOk]
  | ok pop =>
    cases he : siteVarStage d d.existing_hospitals with
    | error e => simp [exceptOk]
    | ok u =>
      cases hc : siteVarStage d d.candidate_hospitals with
      | error e => simp [exceptOk]
      | ok u2 =>
        cases hr : rowStage d with
        | error e => simp [exceptOk]
        | ok rows => rw [hr] at h; simp [exceptOk] at h

/-! ## C4: which missing data makes building fail -/

/-- The missing-data condition the builders actually check: some listed
household lacks a `population` entry, or lacks a `distance_indicators`
row, or some listed site is absent from some household's indicator row.
(`travel_distances` does not appear: neither builder reads it.) -/
def missingRequired (d : DataInstance) : Bool :=
  d.households.any (fun i => (lookupS d.population i).isNone) ||
    d.households.any (fun i =>
      match lookupS d.distance_indicators i with
      | none => true
      | some row => d.all_hospitals.any (fun j => (lookupS row j).isNone))

/-- C4 as amended: building fails whenever a listed household is missing
from the population mapping or from the feasibility-indicator mapping, or
a listed site is missing from some household's indicator row.  (The
travel-distance part of the original claim is refuted by
`claim4_counterexample`: neither builder ever reads `travel_distances`.) -/
theorem claim4_missing_required_data_fails (d : DataInstance)
    (hmiss : missingRequired d = true) :
    exceptOk (buildDense d) = false ∧ exceptOk (buildSparse d) = false := by
  unfold missingRequired at hmiss
  rcases (Bool.or_eq_true _ _).mp hmiss with hpop | hind
  · rcases List.any_eq_true.mp hpop with ⟨i, hi, hnone⟩
    have hnone2 : lookupS d.population i = none := Option.isNone_iff_eq_none.mp hnone
    have hfail : exceptOk (popStage d) = false := by
      unfold popStage
      apply mapE_err _ _ i hi
      rw [hnone2]
      rfl
    exact ⟨buildDense_err_pop d hfail, buildSparse_err_pop d hfail⟩
  · rcases List.any_eq_true.mp hind with ⟨i, hi, hcase⟩
    have hfail : exceptOk (rowStage d) = false := by
      unfold rowStage
      apply mapE_err _ _ i hi
      cases hli : lookupS d.distance_indicators i with
      | none => rfl
      | some row =>
        rw [hli] at hcase
        rcases List.any_eq_true.mp hcase with ⟨j, hj, hjn⟩
        have hjn2 : lookupS row j = none := Option.isNone_iff_eq_none.mp hjn
        have hinner : exceptOk (mapE d.all_hospitals (fun j =>
            match lookupS row j with
            | none => Except.error ("KeyError: distance_indicators " ++ i ++ " " ++ j)
            | some v => Except.ok (j, v))) = false := by
          apply mapE_err _ _ j hj
          rw [hjn2]
          rfl
        show exceptOk (match mapE d.all_hospitals (fun j =>
            match lookupS row j with
            | none => Except.error ("KeyError: distance_indicators " ++ i ++ " " ++ j)
            | some v => Except.ok (j, v)) with
          | Except.error e => Except.error e
          | Except.ok entries => Except.ok (i, entries)) = false
        cases hm : mapE d.all_hospitals (fun j =>
            match lookupS row j with
            | none => Except.error ("KeyError: distance_indicators " ++ i ++ " " ++ j)
            | some v => Except.ok (j, v)) with
        | error e => rfl
        | ok entries => rw [hm] at hinner; simp [exceptOk] at hinner
    exact ⟨buildDense_err_rows d hfail, buildSparse_err_rows d hfail⟩

/-! ## Concrete instances for witnesses and counterexamples -/

/-- A small complete instance (2 households, 1 existing site, 1 candidate
site) with binary indicators, disjoint site lists, and all mappings
populated. -/
def dSmall : DataInstance :=
  { households := [ "H1", "H2" ]
    existing_hospitals := [ "EJ1" ]
    candidate_hospitals := [ "CJ1" ]
    all_hospitals := [ "EJ1", "CJ1" ]
    population := [ ( "H1", 100), ( "H2", 200) ]
    travel_distances := [ ( "H1", [ ( "EJ1", 3), ( "CJ1", 20) ]), ( "H2", [ ( "EJ1", 12), ( "CJ1", 1) ]) ]
    distance_indicators := [ ( "H1", [ ( "EJ1", 1), ( "CJ1", 0) ]), ( "H2", [ ( "EJ1", 0), ( "CJ1", 1) ]) ]
    max_travel_distance := 10
    max_new_hospitals := 1 }

/-- Like `dSmall` but with an empty travel-distance mapping: every id is
missing from it, yet population and indicators are complete. -/
def dTravelless : DataInstance :=
  { dSmall with travel_distances := [] }

/-- Like `dSmall` but with household H2 missing from the population
mapping. -/
def dMissPop : DataInstance :=
  { dSmall with population := [ ( "H1", 100) ] }

/-- Variant of `dSmall` with different raw travel distances and a
different maximum travel distance, all builder-relevant fields equal. -/
def dSmallFar : DataInstance :=
  { dSmall with
      travel_distances := [ ( "H1", [ ( "EJ1", 999), ( "CJ1", 1000) ]) ]
      max_travel_distance := 2 }

/-- Counterexample to C4 as stated: in `dTravelless` the household H1 is
listed in the instance's id lists but missing from the travel-distance
mapping (which is empty), yet both builders succeed — building does not
fail when travel-distance data is missing, because neither builder ever
reads `travel_distances`. -/
theorem claim4_counterexample :
    ( "H1" ∈ dTravelless.households) ∧
      lookupS dTravelless.travel_distances "H1" = none ∧
      exceptOk (buildDense dTravelless) = true ∧
      exceptOk (buildSparse dTravelless) = true := by
  refine ⟨?_, rfl, rfl, rfl⟩
  simp [dTravelless, dSmall]

/-- Witness for the amended C4 at `dMissPop`, whose household H2 lacks a
population entry: both builders fail. -/
theorem claim4_missing_required_data_fails_witness :
    missingRequired dMissPop = true ∧
      exceptOk (buildDense dMissPop) = false ∧ exceptOk (buildSparse dMissPop) = false :=
  ⟨by decide, claim4_missing_required_data_fails dMissPop (by decide)⟩

/-- Witness for C10: `dSmall` and `dSmallFar` differ in `travel_distances`
and `max_travel_distance` but agree on everything the builders read, and
both builders produce identical formulations on them. -/
theorem claim10_distances_never_read_witness :
    dSmall.travel_distances ≠ dSmallFar.travel_distances ∧
      buildDense dSmall = buildDense dSmallFar ∧ buildSparse dSmall = buildSparse dSmallFar :=
  ⟨by decide,
    claim10_distances_never_read dSmall dSmallFar rfl rfl rfl rfl rfl rfl rfl⟩

/-! ## Constraint semantics of the emitted formulation

Variables are binary (`vtype=GRB.BINARY`), so solutions are Bool-valued
assignments; `bi` is the 0/1 integer value of a binary variable.  A lazy
constraint (Gurobi `lazy=1`) is still enforced at every accepted solution,
so the feasibility predicate treats `lazyFlag` as irrelevant: only the
work performed during search changes. -/

def bi (b : Bool) : Int := if b then 1 else 0

/-- Constraint 2 left-hand side: `quicksum(x[j] for j in candidate_hospitals)`. -/
def candSum (F : Formulation) (x : String → Bool) : Int :=
  (F.candidates.map (fun j => bi (x j))).sum

/-- Constraint 3 left-hand side: `quicksum(y[i, j] for i in households)`. -/
def colSum (F : Formulation) (y : String → String → Bool) (j : String) : Int :=
  (F.households.map (fun i => bi (y i j))).sum

/-- Constraint 4 left-hand side: `quicksum(y[i, j] for j in all_hospitals)`. -/
def rowSum (F : Formulation) (y : String → String → Bool) (i : String) : Int :=
  (F.all_hospitals.map (fun j => bi (y i j))).sum

/-- Objective value `quicksum(population[i] * y[i, j] ...)`. -/
def objVal (F : Formulation) (y : String → String → Bool) : Int :=
  (F.popCoeffs.map (fun p => (F.all_hospitals.map (fun j => p.2 * bi (y p.1 j))).sum)).sum

/-- A binary assignment satisfies the five constraint families of the
emitted formulation: existing-open, budget, linking, single-assignment,
and the distance-feasibility constraints recorded in `distCons`. -/
def feasibleSol (F : Formulation) (x : String → Bool) (y : String → String → Bool) : Prop :=
  (∀ j ∈ F.existing, x j = true) ∧
    candSum F x ≤ F.budget ∧
    (∀ j ∈ F.all_hospitals, colSum F y j ≤ (F.bigM : Int) * bi (x j)) ∧
    (∀ i ∈ F.households, rowSum F y i ≤ 1) ∧
    (∀ c ∈ F.distCons, bi (y c.h c.s) ≤ c.rhs)

instance (F : Formulation) (x : String → Bool) (y : String → String → Bool) :
    Decidable (feasibleSol F x y) := by
  unfold feasibleSol
  infer_instance

/-! ## Builder inversion -/

theorem buildDense_inv (d : DataInstance) (F : Formulation)
    (hD : buildDense d = Except.ok F) :
    ∃ pop rows, popStage d = Except.ok pop ∧ rowStage d = Except.ok rows ∧
      F = mkForm d pop (denseConsOf rows) := by
  unfold buildDense at hD
  cases hp : popStage d with
  | error e => rw [hp] at hD; cases hD
  | ok pop =>
    rw [hp] at hD
    cases he : siteVarStage d d.existing_hospitals with
    | error e => rw [he] at hD; cases hD
    | ok u =>
      rw [he] at hD
      cases hc : siteVarStage d d.candidate_hospitals with
      | error e => rw [hc] at hD; cases hD
      | ok u2 =>
        rw [hc] at hD
        cases hr : rowStage d with
        | error e => rw [hr] at hD; cases hD
        | ok rows =>
          rw [hr] at hD
          cases hD
          exact ⟨pop, rows, rfl, rfl, rfl⟩

theorem buildSparse_inv (d : DataInstance) (F : Formulation)
    (hS : buildSparse d = Except.ok F) :
    ∃ pop rows, popStage d = Except.ok pop ∧ rowStage d = Except.ok rows ∧
      F = mkForm d pop (sparseConsOf rows) := by
  unfold buildSparse at hS
  cases hp : popStage d with
  | error e => rw [hp] at hS; cases hS
  | ok pop =>
    rw [hp] at hS
    cases he : siteVarStage d d.existing_hospitals with
    | error e => rw [he] at hS; cases hS
    | ok u =>
      rw [he] at hS
      cases hc : siteVarStage d d.candidate_hospitals with
      | error e => rw [hc] at hS; cases hS
      | ok u2 =>
        rw [hc] at hS
        cases hr : rowStage d with
        | error e => rw [hr] at hS; cases hS
        | ok rows =>
          rw [hr] at hS
          cases hS
          exact ⟨pop, rows, rfl, rfl, rfl⟩

/-- Every entry collected by the indicator stage comes from a successful
nested lookup in the instance's indicator mapping. -/
theorem rowStage_vals (d : DataInstance) (rows : List (String × List (String × Int)))
    (hr : rowStage d = Except.ok rows) :
    ∀ p ∈ rows, ∀ q ∈ p.2, ∃ drow, lookupS d.distance_indicators p.1 = some drow ∧
      lookupS drow q.1 = some q.2 := by
  intro p hp q hq
  rcases mapE_ok_backward _ _ _ hr p hp with ⟨i, hil, hfi⟩
  split at hfi
  · cases hfi
  · rename_i drow hli
    split at hfi
    · cases hfi
    · rename_i entries hm
      cases hfi
      rcases mapE_ok_backward _ _ _ hm q hq with ⟨j, hjl, hfj⟩
      split at hfj
      · cases hfj
      · rename_i v hlj
        cases hfj
        exact ⟨drow, hli, hlj⟩

/-- Every listed pair whose indicator lookup succeeds appears among the
collected indicator-stage rows. -/
theorem rowStage_cover (d : DataInstance) (rows : List (String × List (String × Int)))
    (hr : rowStage d = Except.ok rows) :
    ∀ i ∈ d.households, ∀ j ∈ d.all_hospitals, ∀ v : Int,
      lookup2 d.distance_indicators i j = some v →
      ∃ p ∈ rows, p.1 = i ∧ (j, v) ∈ p.2 := by
  intro i hi j hj v hv
  unfold lookup2 at hv
  split at hv
  · cases hv
  · rename_i drow hli
    rcases mapE_ok_forward _ _ _ hr i hi with ⟨p, hfp, hpm⟩
    split at hfp
    · rename_i hli2
      rw [hli] at hli2
      cases hli2
    · rename_i drow2 hli2
      rw [hli] at hli2
      cases hli2
      split at hfp
      · cases hfp
      · rename_i entries hm
        cases hfp
        refine ⟨(i, entries), hpm, rfl, ?_⟩
        rcases mapE_ok_forward _ _ _ hm j hj with ⟨q, hfq, hqm⟩
        rw [hv] at hfq
        cases hfq
        exact hqm

/-! ## Sum helper lemmas -/

theorem sum_map_zero {α : Type} (l : List α) (f : α → Int) (h : ∀ a ∈ l, f a = 0) :
    (l.map f).sum = 0 := by
  induction l with
  | nil => rfl
  | cons b t ih =>
    simp only [List.map_cons, List.sum_cons]
    rw [h b (List.mem_cons_self _ _), ih (fun a ha => h a (List.mem_cons_of_mem _ ha))]
    rfl

theorem sum_map_ones {α : Type} (l : List α) (f : α → Int) (h : ∀ a ∈ l, f a = 1) :
    (l.map f).sum = (l.length : Int) := by
  induction l with
  | nil => rfl
  | cons b t ih =>
    simp only [List.map_cons, List.sum_cons, List.length_cons]
    rw [h b (List.mem_cons_self _ _), ih (fun a ha => h a (List.mem_cons_of_mem _ ha))]
    push_cast
    ring

theorem bi_le_one (b : Bool) : bi b ≤ 1 := by
  cases b <;> simp [bi]

theorem bi_nonneg (b : Bool) : 0 ≤ bi b := by
  cases b <;> simp [bi]

/-! ## C9: the linking constraint's big-M bound -/

/-- C9: constraint family 3 is emitted with big-M bound `len(households)`
(`quicksum(y[i, j] for i in households) <= len(households) * x[j]`), and
that bound is never tighter than required: a solution that opens a site
`j0` and assigns every household to it satisfies that site's linking
constraint.  The family is textually identical in the dense and sparse
builders; the theorem is stated over the dense builder's output. -/
theorem claim9_linking_bigM (d : DataInstance) (F : Formulation)
    (hD : buildDense d = Except.ok F)
    (x : String → Bool) (y : String → String → Bool) (j0 : String)
    (hx : x j0 = true) (hy : ∀ i ∈ F.households, y i j0 = true) :
    F.bigM = d.households.length ∧
      colSum F y j0 ≤ (F.bigM : Int) * bi (x j0) := by
  rcases buildDense_inv d F hD with ⟨pop, rows, hpop, hrows, hF⟩
  subst hF
  refine ⟨rfl, ?_⟩
  have hcol : colSum (mkForm d pop (denseConsOf rows)) y j0 = (d.households.length : Int) := by
    unfold colSum mkForm
    exact sum_map_ones _ _ (fun i hi => by rw [hy i hi]; rfl)
  rw [hcol, hx]
  unfold mkForm bi
  simp

/-! ## Formulation values extracted from the small instance -/

/-- Payload of a successful build, with an explicit fallback so the
extraction is total. -/
def okOr (e : Except String Formulation) (dflt : Formulation) : Formulation :=
  match e with
  | .ok F => F
  | .error _ => dflt

def emptyForm : Formulation :=
  { households := [], existing := [], candidates := [], all_hospitals := []
    popCoeffs := [], budget := 0, bigM := 0, distCons := [] }

def FDsmall : Formulation := okOr (buildDense dSmall) emptyForm

def FSsmall : Formulation := okOr (buildSparse dSmall) emptyForm

/-- Witness for C9: on `dSmall`, opening site EJ1 and assigning both
households to it satisfies the linking constraint for EJ1. -/
theorem claim9_linking_bigM_witness :
    buildDense dSmall = Except.ok FDsmall ∧
      (FDsmall.bigM = dSmall.households.length ∧
        colSum FDsmall (fun _ _ => true) "EJ1" ≤
          (FDsmall.bigM : Int) * bi ((fun _ => true) "EJ1")) :=
  ⟨rfl, claim9_linking_bigM dSmall FDsmall rfl (fun _ => true) (fun _ _ => true) "EJ1" rfl
    (fun _ _ => rfl)⟩

/-! ## C1: dense and sparse-lazy formulations are equivalent -/

/-- With binary indicator values, the dense distance-constraint family
(`y[i,j] <= indicator` for every pair) and the sparse-lazy family
(`y[i,j] <= 0` for indicator-0 pairs only) are satisfied by exactly the
same binary assignments: a binary variable trivially satisfies a
right-hand side of 1, so only the indicator-0 constraints bind. -/
theorem family5_iff (rows : List (String × List (String × Int)))
    (hbin : ∀ p ∈ rows, ∀ q ∈ p.2, q.2 = 0 ∨ q.2 = 1) (y : String → String → Bool) :
    (∀ c ∈ denseConsOf rows, bi (y c.h c.s) ≤ c.rhs) ↔
      (∀ c ∈ sparseConsOf rows, bi (y c.h c.s) ≤ c.rhs) := by
  constructor
  · intro hd c hc
    rcases List.mem_flatMap.mp hc with ⟨p, hp, hcp⟩
    rcases List.mem_filterMap.mp hcp with ⟨q, hq, hqc⟩
    by_cases h0 : q.2 = 0
    · rw [if_pos h0] at hqc
      cases hqc
      have hmem : (⟨p.1, q.1, q.2, false⟩ : DistCon) ∈ denseConsOf rows :=
        List.mem_flatMap.mpr ⟨p, hp, List.mem_map.mpr ⟨q, hq, rfl⟩⟩
      have hdd := hd _ hmem
      rw [h0] at hdd
      exact hdd
    · rw [if_neg h0] at hqc
      cases hqc
  · intro hs c hc
    rcases List.mem_flatMap.mp hc with ⟨p, hp, hcp⟩
    rcases List.mem_map.mp hcp with ⟨q, hq, hqc⟩
    cases hqc
    rcases hbin p hp q hq with h0 | h1
    · have hmem : (⟨p.1, q.1, 0, true⟩ : DistCon) ∈ sparseConsOf rows :=
        List.mem_flatMap.mpr ⟨p, hp, List.mem_filterMap.mpr ⟨q, hq, by rw [if_pos h0]⟩⟩
      have hss := hs _ hmem
      rw [h0]
      exact hss
    · rw [h1]
      exact bi_le_one _

/-- C1: for an instance with binary feasibility indicators, the dense
formulation and the sparse-lazy formulation built from it admit exactly
the same feasible binary assignments; consequently every pair with
indicator 0 has assignment 0 in every feasible solution, and the two
formulations attain exactly the same objective values (hence the same
optimum).  The lazy marking affects only when the engine materializes the
constraint, not which solutions are feasible. -/
theorem claim1_dense_sparse_equivalence (d : DataInstance) (F Fs : Formulation)
    (hbin : ∀ p ∈ d.distance_indicators, ∀ q ∈ p.2, q.2 = 0 ∨ q.2 = 1)
    (hD : buildDense d = Except.ok F) (hS : buildSparse d = Except.ok Fs) :
    (∀ x y, feasibleSol F x y ↔ feasibleSol Fs x y) ∧
      (∀ x y, feasibleSol F x y → ∀ i ∈ d.households, ∀ j ∈ d.all_hospitals,
        lookup2 d.distance_indicators i j = some 0 → y i j = false) ∧
      (∀ v : Int, (∃ x y, feasibleSol F x y ∧ objVal F y = v) ↔
        (∃ x y, feasibleSol Fs x y ∧ objVal Fs y = v)) := by
  rcases buildDense_inv d F hD with ⟨pop, rows, hpop, hrows, hF⟩
  rcases buildSparse_inv d Fs hS with ⟨pop2, rows2, hpop2, hrows2, hFs⟩
  rw [hpop] at hpop2
  cases hpop2
  rw [hrows] at hrows2
  cases hrows2
  subst hF
  subst hFs
  have hbrows : ∀ p ∈ rows, ∀ q ∈ p.2, q.2 = 0 ∨ q.2 = 1 := by
    intro p hp q hq
    rcases rowStage_vals d rows hrows p hp q hq with ⟨drow, hld, hlq⟩
    exact hbin _ (lookupS_mem _ _ _ hld) _ (lookupS_mem _ _ _ hlq)
  have hiff : ∀ x y, feasibleSol (mkForm d pop (denseConsOf rows)) x y ↔
      feasibleSol (mkForm d pop (sparseConsOf rows)) x y := by
    intro x y
    constructor
    · rintro ⟨a, b2, c2, d2, e2⟩
      exact ⟨a, b2, c2, d2, (family5_iff rows hbrows y).mp e2⟩
    · rintro ⟨a, b2, c2, d2, e2⟩
      exact ⟨a, b2, c2, d2, (family5_iff rows hbrows y).mpr e2⟩
  refine ⟨hiff, ?_, ?_⟩
  · intro x y hf i hi j hj hv
    have hfs := (hiff x y).mp hf
    rcases rowStage_cover d rows hrows i hi j hj 0 hv with ⟨p, hp, hpi, hjm⟩
    have hmem : (⟨i, j, 0, true⟩ : DistCon) ∈ sparseConsOf rows := by
      refine List.mem_flatMap.mpr ⟨p, hp, List.mem_filterMap.mpr ⟨(j, 0), hjm, ?_⟩⟩
      simp [hpi]
    have hle := hfs.2.2.2.2 _ hmem
    cases hyij : y i j
    · rfl
    · rw [hyij] at hle
      simp [bi] at hle
  · intro v
    constructor
    · rintro ⟨x, y, hf, ho⟩
      exact ⟨x, y, (hiff x y).mp hf, ho⟩
    · rintro ⟨x, y, hf, ho⟩
      exact ⟨x, y, (hiff x y).mpr hf, ho⟩

/-- Witness for C1 on the small instance `dSmall`, whose indicators are
binary and on which both builders succeed. -/
theorem claim1_dense_sparse_equivalence_witness :
    (∀ p ∈ dSmall.distance_indicators, ∀ q ∈ p.2, q.2 = 0 ∨ q.2 = 1) ∧
      ((∀ x y, feasibleSol FDsmall x y ↔ feasibleSol FSsmall x y) ∧
        (∀ x y, feasibleSol FDsmall x y → ∀ i ∈ dSmall.households,
          ∀ j ∈ dSmall.all_hospitals,
          lookup2 dSmall.distance_indicators i j = some 0 → y i j = false) ∧
        (∀ v : Int, (∃ x y, feasibleSol FDsmall x y ∧ objVal FDsmall y = v) ↔
          (∃ x y, feasibleSol FSsmall x y ∧ objVal FSsmall y = v))) :=
  ⟨by decide, claim1_dense_sparse_equivalence dSmall FDsmall FSsmall (by decide) rfl rfl⟩

/-! ## C6: the empty assignment is feasible -/

/-- C6: for every instance with a non-negative budget whose existing
sites all appear in the combined site list (implied here by the builder
succeeding, which checks exactly that), with the §3 instance invariants
that the candidate list is disjoint from the existing list and the
indicator values are non-negative, the solution that opens exactly the
existing sites and assigns nothing satisfies all five constraint families
of both the dense and the sparse-lazy formulation, with objective 0.
Hence the formulation is feasible whenever those invariants hold, and
true engine infeasibility can only come from the fixed-open constraint
family interacting with the rest. -/
theorem claim6_empty_assignment_feasible (d : DataInstance) (F Fs : Formulation)
    (hD : buildDense d = Except.ok F) (hS : buildSparse d = Except.ok Fs)
    (hp : 0 ≤ d.max_new_hospitals)
    (hdisj : ∀ j ∈ d.candidate_hospitals, j ∉ d.existing_hospitals)
    (hnn : ∀ p ∈ d.distance_indicators, ∀ q ∈ p.2, 0 ≤ q.2) :
    feasibleSol F (fun j => decide (j ∈ d.existing_hospitals)) (fun _ _ => false) ∧
      feasibleSol Fs (fun j => decide (j ∈ d.existing_hospitals)) (fun _ _ => false) ∧
      objVal F (fun _ _ => false) = 0 ∧ objVal Fs (fun _ _ => false) = 0 := by
  rcases buildDense_inv d F hD with ⟨pop, rows, hpop, hrows, hF⟩
  rcases buildSparse_inv d Fs hS with ⟨pop2, rows2, hpop2, hrows2, hFs⟩
  rw [hpop] at hpop2
  cases hpop2
  rw [hrows] at hrows2
  cases hrows2
  subst hF
  subst hFs
  have hrhs : ∀ p ∈ rows, ∀ q ∈ p.2, (0 : Int) ≤ q.2 := by
    intro p hp2 q hq
    rcases rowStage_vals d rows hrows p hp2 q hq with ⟨drow, hld, hlq⟩
    exact hnn _ (lookupS_mem _ _ _ hld) _ (lookupS_mem _ _ _ hlq)
  have hobj : objVal (mkForm d pop (denseConsOf rows)) (fun _ _ => false) = 0 := by
    unfold objVal mkForm
    apply sum_map_zero
    intro a _
    apply sum_map_zero
    intro b _
    simp [bi]
  have hfam1 : ∀ j ∈ d.existing_hospitals, decide (j ∈ d.existing_hospitals) = true :=
    fun j hj => decide_eq_true hj
  have hfam2 : candSum (mkForm d pop (denseConsOf rows))
      (fun j => decide (j ∈ d.existing_hospitals)) ≤ d.max_new_hospitals := by
    unfold candSum mkForm
    have hz : (d.candidate_hospitals.map
        (fun j => bi (decide (j ∈ d.existing_hospitals)))).sum = 0 := by
      apply sum_map_zero
      intro j hj
      rw [decide_eq_false (hdisj j hj)]
      rfl
    rw [hz]
    exact hp
  have hfam3 : ∀ j ∈ d.all_hospitals,
      colSum (mkForm d pop (denseConsOf rows)) (fun _ _ => false) j ≤
        ((mkForm d pop (denseConsOf rows)).bigM : Int) *
          bi (decide (j ∈ d.existing_hospitals)) := by
    intro j _
    have hz : colSum (mkForm d pop (denseConsOf rows)) (fun _ _ => false) j = 0 := by
      unfold colSum mkForm
      exact sum_map_zero _ _ (fun a _ => rfl)
    rw [hz]
    exact mul_nonneg (by positivity) (bi_nonneg _)
  have hfam4 : ∀ i ∈ d.households,
      rowSum (mkForm d pop (denseConsOf rows)) (fun _ _ => false) i ≤ 1 := by
    intro i _
    have hz : rowSum (mkForm d pop (denseConsOf rows)) (fun _ _ => false) i = 0 := by
      unfold rowSum mkForm
      exact sum_map_zero _ _ (fun a _ => rfl)
    rw [hz]
    norm_num
  refine ⟨⟨hfam1, hfam2, hfam3, hfam4, ?_⟩, ⟨hfam1, hfam2, hfam3, hfam4, ?_⟩, hobj, hobj⟩
  · intro c hc
    rcases List.mem_flatMap.mp hc with ⟨p, hp2, hcp⟩
    rcases List.mem_map.mp hcp with ⟨q, hq, hqc⟩
    cases hqc
    exact hrhs p hp2 q hq
  · intro c hc
    rcases List.mem_flatMap.mp hc with ⟨p, hp2, hcp⟩
    rcases List.mem_filterMap.mp hcp with ⟨q, hq, hqc⟩
    by_cases h0 : q.2 = 0
    · rw [if_pos h0] at hqc
      cases hqc
      simp [bi]
    · rw [if_neg h0] at hqc
      cases hqc

/-- Witness for C6 on `dSmall`. -/
theorem claim6_empty_assignment_feasible_witness :
    (0 ≤ dSmall.max_new_hospitals) ∧
      (feasibleSol FDsmall (fun j => decide (j ∈ dSmall.existing_hospitals)) (fun _ _ => false) ∧
        feasibleSol FSsmall (fun j => decide (j ∈ dSmall.existing_hospitals)) (fun _ _ => false) ∧
        objVal FDsmall (fun _ _ => false) = 0 ∧ objVal FSsmall (fun _ _ => false) = 0) :=
  ⟨by decide,
    claim6_empty_assignment_feasible dSmall FDsmall FSsmall rfl rfl (by decide) (by decide)
      (by decide)⟩

/-! ## C5: result reporting in the solve orchestrator

`main` in src/solve.py (lines 226-244) and the identical results section
in src/run.py test only `model.Status == 2` (Gurobi OPTIMAL); every other
terminal status — 3 (INFEASIBLE), 9 (TIME_LIMIT), 11 (INTERRUPTED),
licensing and error codes — falls into one `else` branch that prints the
raw numeric status code and no objective. -/

/-- What the results section prints: the status line, the objective line
if any, and the node-count line if any.  `reportOf status obj nodes`
embeds the `if model.Status == 2: ... else: ...` branch. -/
structure SolveReport where
  statusLine : String
  objectiveShown : Option Int
  nodesShown : Option Int

/-- Embedding of the results branch of `main` (src/solve.py lines
226-244; src/run.py lines 58-73 are identical). -/
def reportOf (status : Int) (obj nodes : Int) : SolveReport :=
  if status = 2 then
    { statusLine := "Status: Optimal", objectiveShown := some obj, nodesShown := some nodes }
  else
    { statusLine := "Status: " ++ toString status, objectiveShown := none, nodesShown := none }

/-- The only discrimination the code performs on the engine status. -/
def statusIsOptimalBranch (status : Int) : Bool := status = 2

/-- Modelled from the spec: the four-way Solve Result taxonomy of §4.3
(optimal / time- or gap-limited feasible / infeasible / other-error), on
Gurobi terminal status codes (2 = OPTIMAL, 3 = INFEASIBLE,
9 = TIME_LIMIT, anything else = other/error).  This definition follows
the spec's words and exists only to be compared with the code's
behaviour. -/
inductive SpecStatus where
  | optimal
  | limitFeasible
  | infeasible
  | otherError
deriving DecidableEq

def specSolveTaxonomy (status : Int) : SpecStatus :=
  if status = 2 then .optimal
  else if status = 3 then .infeasible
  else if status = 9 then .limitFeasible
  else .otherError

/-- Counterexample to C5 as stated: at engine status 3 (infeasible) the
code takes the same undifferentiated non-optimal branch as at status 11
(interrupted/error), although the spec's four-way taxonomy separates
them, and the emitted report merely echoes the raw numeric status code.
So the orchestrator does not translate the engine status into the
four-way taxonomy; in particular infeasibility is not reported as a
distinct `infeasible` status. -/
theorem claim5_counterexample :
    statusIsOptimalBranch 3 = statusIsOptimalBranch 11 ∧
      specSolveTaxonomy 3 ≠ specSolveTaxonomy 11 ∧
      (reportOf 3 0 0).statusLine = "Status: " ++ toString (3 : Int) ∧
      (reportOf 3 0 0).objectiveShown = none := by
  refine ⟨rfl, by decide, rfl, rfl⟩

/-- C5 as amended: the orchestrator distinguishes only optimal (engine
status 2) from everything else.  For every non-optimal terminal status —
including infeasible (3) — it still returns a well-formed report rather
than raising, with no objective value, but the status it reports is the
raw numeric engine code, not a translated four-way taxonomy entry. -/
theorem claim5_raw_status_reported (status : Int) (obj nodes : Int)
    (hne : status ≠ 2) :
    reportOf status obj nodes =
      { statusLine := "Status: " ++ toString status, objectiveShown := none,
        nodesShown := none } := by
  unfold reportOf
  rw [if_neg hne]

/-- Witness for the amended C5 at the infeasible status code 3. -/
theorem claim5_raw_status_reported_witness :
    reportOf 3 0 0 =
      { statusLine := "Status: " ++ toString (3 : Int), objectiveShown := none,
        nodesShown := none } :=
  claim5_raw_status_reported 3 0 0 (by decide)
